import Mathlib

/-!
Verification of the liquid-pouring interaction model in
`src/threejs-models/liquid-pouring.js`.

The development shallowly embeds the volume / tilt / pour logic of the
`LiquidContainer` class hierarchy, the `PourManager` transfer step, the
`InteractionManager` return-to-upright animation and its drag/animation
bookkeeping.  JS numbers are modelled as real numbers (exact arithmetic);
`THREE.Euler` rotations use the library's default intrinsic XYZ order, so a
rotation with Euler angles `(x, y, z)` acts on a vector as `Rx (Ry (Rz v))`,
which is also the quaternion `group.quaternion` that `getTiltAngle` reads.
Cosmetic fields of the JS objects (materials, meshes, colors, names) are not
modelled; `objId` stands for JS object identity (the `===` test used by
`PourManager.findTargetContainer`).
-/

/-- A 3-component vector, modelling `THREE.Vector3`. -/
structure Vec3 where
  x : ℝ
  y : ℝ
  z : ℝ


/-- Euler angles, modelling `THREE.Euler` with the default XYZ order. -/
structure Euler where
  x : ℝ
  y : ℝ
  z : ℝ


/-- Componentwise sum of two vectors. -/
def vadd (a b : Vec3) : Vec3 := ⟨a.x + b.x, a.y + b.y, a.z + b.z⟩

/-- Dot product, modelling `THREE.Vector3.dot`. -/
def dot3 (a b : Vec3) : ℝ := a.x * b.x + a.y * b.y + a.z * b.z

/-- Rotation about the x axis by angle `t` (right-handed). -/
noncomputable def rotateX (t : ℝ) (v : Vec3) : Vec3 :=
  ⟨v.x, Real.cos t * v.y - Real.sin t * v.z, Real.sin t * v.y + Real.cos t * v.z⟩

/-- Rotation about the y axis by angle `t` (right-handed). -/
noncomputable def rotateY (t : ℝ) (v : Vec3) : Vec3 :=
  ⟨Real.cos t * v.x + Real.sin t * v.z, v.y, -(Real.sin t) * v.x + Real.cos t * v.z⟩

/-- Rotation about the z axis by angle `t` (right-handed). -/
noncomputable def rotateZ (t : ℝ) (v : Vec3) : Vec3 :=
  ⟨Real.cos t * v.x - Real.sin t * v.y, Real.sin t * v.x + Real.cos t * v.y, v.z⟩

/-- Applying a `THREE.Euler` rotation in the default XYZ order: the rotation
matrix is `Rx · Ry · Rz`, i.e. `Rz` acts first.  This is what
`applyQuaternion(this.group.quaternion)` computes for a group whose rotation
was set through `rotation.set(x, y, z)`. -/
noncomputable def applyEulerXYZ (e : Euler) (v : Vec3) : Vec3 :=
  rotateX e.x (rotateY e.y (rotateZ e.z v))

/-- The two vessel shapes instantiated by the file (`Beaker` /
`ErlenmeyerFlask` subclasses of `LiquidContainer`). -/
inductive ContainerShape
  | beaker
  | erlenmeyer
deriving DecidableEq

/-- State of a `LiquidContainer` (liquid-pouring.js lines 186-240), restricted
to the fields the pouring logic reads: volumes, the group transform
(`group.position`, `group.rotation`), the pour spout offset, the drag flag and
the subclass tag.  `objId` models JS object identity. -/
structure LiquidContainer where
  objId : ℕ
  shape : ContainerShape
  maxVolume : ℝ
  currentVolume : ℝ
  pourSpoutOffset : Vec3
  position : Vec3
  rotation : Euler
  isDragging : Bool

/-- Constructor options for the `LiquidContainer` base class; `none` models a
missing (undefined) property. -/
structure ContainerOptions where
  maxVolume : Option ℝ
  initialVolume : Option ℝ

/-- JS `a || d` for a possibly-missing numeric option: the default is taken
when the option is absent or `0` (falsy). -/
noncomputable def jsOr (v : Option ℝ) (d : ℝ) : ℝ :=
  match v with
  | none => d
  | some a => if a = 0 then d else a

/-- The `LiquidContainer` constructor (lines 187-201): `maxVolume` defaults to
250, `currentVolume` is set to `options.initialVolume || 150` WITHOUT
clamping, the spout offset starts at the origin and the group transform is the
identity.  `objId` and `shape` are bookkeeping for the model. -/
noncomputable def mkLiquidContainer (objId : ℕ) (shape : ContainerShape)
    (options : ContainerOptions) : LiquidContainer :=
  { objId := objId
    shape := shape
    maxVolume := jsOr options.maxVolume 250
    currentVolume := jsOr options.initialVolume 150
    pourSpoutOffset := ⟨0, 0, 0⟩
    position := ⟨0, 0, 0⟩
    rotation := ⟨0, 0, 0⟩
    isDragging := false }

/-- `getPourSpoutWorldPosition` (lines 203-207): `localToWorld` of the spout
offset for a group with no parent and unit scale. -/
noncomputable def LiquidContainer.getPourSpoutWorldPosition
    (c : LiquidContainer) : Vec3 :=
  vadd c.position (applyEulerXYZ c.rotation c.pourSpoutOffset)

/-- `getTiltAngle` (lines 209-214): the arccosine of the dot product of
world-up with the rotated local-up axis, the dot product clamped to
`[-1, 1]` by `Math.max(-1, Math.min(1, d))`. -/
noncomputable def tiltAngleOfEuler (e : Euler) : ℝ :=
  Real.arccos (max (-1) (min 1 (dot3 ⟨0, 1, 0⟩ (applyEulerXYZ e ⟨0, 1, 0⟩))))

/-- `getTiltAngle` as a method of the container. -/
noncomputable def LiquidContainer.getTiltAngle (c : LiquidContainer) : ℝ :=
  tiltAngleOfEuler c.rotation

/-- `canPour` (lines 216-218): tilt strictly above 30 degrees and volume
strictly positive. -/
noncomputable def LiquidContainer.canPour (c : LiquidContainer) : Prop :=
  c.getTiltAngle > Real.pi / 6 ∧ c.currentVolume > 0

/-- The body of `getPourRate` (lines 220-226) as a function of the tilt:
0 below the 30-degree threshold, otherwise the normalized excess tilt times
80, capped at 60 mL/second. -/
noncomputable def pourRateOfTilt (tilt : ℝ) : ℝ :=
  if tilt < Real.pi / 6 then 0
  else min ((tilt - Real.pi / 6) / (Real.pi / 2) * 80) 60

/-- `getPourRate` as a method of the container. -/
noncomputable def LiquidContainer.getPourRate (c : LiquidContainer) : ℝ :=
  pourRateOfTilt c.getTiltAngle

/-- `setVolume` (lines 232-235): clamp to `[0, maxVolume]` via
`Math.max(0, Math.min(this.maxVolume, volume))`.  (The geometry refresh
`updateLiquid` has no effect on this state.) -/
noncomputable def LiquidContainer.setVolume (c : LiquidContainer) (volume : ℝ) :
    LiquidContainer :=
  { c with currentVolume := max 0 (min c.maxVolume volume) }

/-- `addVolume` (lines 237-239). -/
noncomputable def LiquidContainer.addVolume (c : LiquidContainer) (amount : ℝ) :
    LiquidContainer :=
  c.setVolume (c.currentVolume + amount)

/-- The per-shape capture radius used by `PourManager.findTargetContainer`
(line 1103): `container instanceof Beaker ? 1.35 : 0.32`. -/
noncomputable def shapeRadius : ContainerShape → ℝ
  | ContainerShape.beaker => 1.35
  | ContainerShape.erlenmeyer => 0.32

/-- The per-shape opening height used by `PourManager.findTargetContainer`
(line 1104): `container instanceof Beaker ? 3.3 : 3.9`. -/
noncomputable def shapeTopHeight : ContainerShape → ℝ
  | ContainerShape.beaker => 3.3
  | ContainerShape.erlenmeyer => 3.9

/-- `PourManager.findTargetContainer` (lines 1091-1111): scan the container
list, skip the source itself (identity test), and return the first container
whose horizontal distance from the source's spout is under
`containerRadius * 1.5` and whose opening minus one unit is below the spout
(`sourcePos.y > containerTop - 1`). -/
noncomputable def findTargetContainer (src : LiquidContainer) :
    List LiquidContainer → Option LiquidContainer
  | [] => none
  | c :: rest =>
    if c.objId = src.objId then findTargetContainer src rest
    else
      let sourcePos := src.getPourSpoutWorldPosition
      let targetPos := c.position
      let horizontalDist := Real.sqrt ((sourcePos.x - targetPos.x) * (sourcePos.x - targetPos.x) +
        (sourcePos.z - targetPos.z) * (sourcePos.z - targetPos.z))
      let containerRadius := shapeRadius c.shape
      let containerTop := targetPos.y + shapeTopHeight c.shape
      if horizontalDist < containerRadius * 1.5 ∧ sourcePos.y > containerTop - 1 then
        some c
      else findTargetContainer src rest

/-- The volume-transfer block of `PourManager.update` (lines 1132-1144) for an
identified pouring source with a target: the source loses
`pourRate * deltaTime` through `addVolume`, the target gains
`amountPoured * 0.9` through `addVolume`. -/
noncomputable def pourTransferPair (src tgt : LiquidContainer) (deltaTime : ℝ) :
    LiquidContainer × LiquidContainer :=
  let amountPoured := src.getPourRate * deltaTime
  (src.addVolume (-amountPoured), tgt.addVolume (amountPoured * 0.9))

/-- The volume-transfer block of `PourManager.update` (lines 1132-1144) for an
identified pouring source with no target: the source loses
`pourRate * deltaTime`; the poured amount is credited nowhere. -/
noncomputable def pourTransferNoTarget (src : LiquidContainer) (deltaTime : ℝ) :
    LiquidContainer :=
  src.addVolume (-(src.getPourRate * deltaTime))

/-- `THREE.MathUtils.lerp`: `x + (y - x) * t`. -/
def lerp (a b t : ℝ) : ℝ := a + (b - a) * t

/-- One entry of `InteractionManager.returnAnimations` (lines 1053-1060). -/
structure ReturnAnim where
  startRot : Euler
  targetRot : Euler
  progress : ℝ
  duration : ℝ

/-- `InteractionManager.startReturnAnimation` (lines 1053-1060): target is
`(0, currentYaw, 0)`, progress 0, duration 0.5 seconds. -/
def startReturnAnimation (r : Euler) : ReturnAnim :=
  { startRot := r
    targetRot := ⟨0, r.y, 0⟩
    progress := 0
    duration := 0.5 }

/-- Result of one frame of the return animation: the new rotation and the
surviving animation entry (if any). -/
structure AnimStepResult where
  rot : Euler
  anim : Option ReturnAnim

/-- One frame of `InteractionManager.update` (lines 1062-1078) for a container
with current rotation `cur` and pending animation `a`: progress advances by
`deltaTime / duration`; at progress `>= 1` the rotation is copied from the
target and the entry removed; otherwise x and z are interpolated with the
cubic ease-out `t = 1 - (1 - progress)^3` while y is left untouched. -/
noncomputable def animUpdateStep (cur : Euler) (a : ReturnAnim) (deltaTime : ℝ) :
    AnimStepResult :=
  let p := a.progress + deltaTime / a.duration
  if 1 ≤ p then
    { rot := a.targetRot, anim := none }
  else
    let t := 1 - (1 - p) ^ 3
    { rot := ⟨lerp a.startRot.x a.targetRot.x t, cur.y, lerp a.startRot.z a.targetRot.z t⟩
      anim := some { a with progress := p } }

/-- Return-animation entry as tracked by the drag/animation bookkeeping model
(progress and duration only; rational arithmetic keeps the model decidable). -/
structure RetAnimQ where
  progress : ℚ
  duration : ℚ
deriving DecidableEq

/-- The `InteractionManager` fields involved in the drag / return-animation
interplay: `selectedContainer`, `isDragging`, and the `returnAnimations` map
keyed by container identity. -/
structure IState where
  selected : Option ℕ
  isDragging : Bool
  anims : ℕ → Option RetAnimQ

/-- The pointer / frame events that mutate those fields.  `mouseDown hit`
carries the container hit by the ray cast (lines 971-1007), `frame dt` is one
run of `InteractionManager.update` (lines 1062-1078). -/
inductive IEvent
  | mouseDown (hit : Option ℕ)
  | mouseMove
  | mouseUp
  | frame (dt : ℚ)

/-- Transition function of the drag/animation bookkeeping:
mouse-down on a container selects it, sets the drag flags and deletes its
return animation (lines 977-984); mouse-move while dragging deletes the
selected container's animation (lines 910-912); mouse-up starts a return
animation for the selected container and clears the selection (lines
1009-1017); a frame advances every animation and removes the finished ones
(lines 1062-1078). -/
def istep (s : IState) : IEvent → IState
  | IEvent.mouseDown none => s
  | IEvent.mouseDown (some c) =>
    { s with selected := some c
             isDragging := true
             anims := fun n => if n = c then none else s.anims n }
  | IEvent.mouseMove =>
    if s.isDragging then
      match s.selected with
      | some c => { s with anims := fun n => if n = c then none else s.anims n }
      | none => s
    else s
  | IEvent.mouseUp =>
    match s.selected with
    | some c =>
      { s with selected := none
               isDragging := false
               anims := fun n =>
                 if n = c then some { progress := 0, duration := 1/2 } else s.anims n }
    | none => { s with isDragging := false }
  | IEvent.frame dt =>
    { s with anims := fun n =>
        match s.anims n with
        | none => none
        | some a =>
          let p := a.progress + dt / a.duration
          if 1 ≤ p then none else some { a with progress := p } }

/-- Initial interaction state: nothing selected, not dragging, no pending
animations (lines 858-870). -/
def initIState : IState :=
  { selected := none, isDragging := false, anims := fun _ => none }

/-- States reachable from the initial interaction state by pointer and frame
events. -/
inductive Reachable : IState → Prop
  | init : Reachable initIState
  | step (s : IState) (e : IEvent) : Reachable s → Reachable (istep s e)

/-- Clamping a value that is already inside `[0, M]` is the identity. -/
theorem max_min_clamp_eq {M x : ℝ} (h0 : 0 ≤ x) (hM : x ≤ M) :
    max 0 (min M x) = x := by
  rw [min_eq_right hM, max_eq_right h0]

/-- The identity rotation fixes every vector. -/
theorem applyEulerXYZ_zero (v : Vec3) : applyEulerXYZ ⟨0, 0, 0⟩ v = v := by
  cases v
  simp [applyEulerXYZ, rotateX, rotateY, rotateZ]

/-- For a rotation with zero x angle, world-up dotted with the rotated
local-up is the cosine of the z (roll) angle; the yaw drops out. -/
theorem dot3_up_applyEuler_xzero (y z : ℝ) :
    dot3 ⟨0, 1, 0⟩ (applyEulerXYZ ⟨0, y, z⟩ ⟨0, 1, 0⟩) = Real.cos z := by
  simp [dot3, applyEulerXYZ, rotateX, rotateY, rotateZ]

/-- For a rotation with zero x angle the tilt angle reduces to
`arccos (cos roll)`. -/
theorem tiltAngleOfEuler_xzero (y z : ℝ) :
    tiltAngleOfEuler ⟨0, y, z⟩ = Real.arccos (Real.cos z) := by
  rw [tiltAngleOfEuler, dot3_up_applyEuler_xzero,
    min_eq_right (Real.cos_le_one z), max_eq_right (Real.neg_one_le_cos z)]

/-- For a rotation with zero x angle and roll in `[-pi, pi]`, the tilt angle
is the absolute value of the roll. -/
theorem tiltAngleOfEuler_abs (y z : ℝ) (h1 : -Real.pi ≤ z) (h2 : z ≤ Real.pi) :
    tiltAngleOfEuler ⟨0, y, z⟩ = |z| := by
  rw [tiltAngleOfEuler_xzero]
  rcases le_total 0 z with hz | hz
  · rw [abs_of_nonneg hz, Real.arccos_cos hz h2]
  · rw [abs_of_nonpos hz, ← Real.cos_neg, Real.arccos_cos (by linarith) (by linarith)]

/-- The pour rate is never negative. -/
theorem pourRateOfTilt_nonneg (t : ℝ) : 0 ≤ pourRateOfTilt t := by
  unfold pourRateOfTilt
  split_ifs with h
  · exact le_refl 0
  · push_neg at h
    exact le_min (mul_nonneg (div_nonneg (by linarith) (by positivity)) (by norm_num))
      (by norm_num)

/-- Concrete pour-rate value at a 90-degree tilt. -/
theorem pourRateOfTilt_pi_div_two : pourRateOfTilt (Real.pi / 2) = 160 / 3 := by
  have hpi := Real.pi_pos
  unfold pourRateOfTilt
  rw [if_neg (by linarith)]
  have h : (Real.pi / 2 - Real.pi / 6) / (Real.pi / 2) * 80 = 160 / 3 := by
    have hne : Real.pi ≠ 0 := ne_of_gt hpi
    field_simp
    ring
  rw [h, min_eq_left (by norm_num)]

/-- A container whose rotation is a quarter-turn roll has tilt `pi / 2`. -/
theorem getTiltAngle_quarter_roll (c : LiquidContainer)
    (h : c.rotation = ⟨0, 0, Real.pi / 2⟩) : c.getTiltAngle = Real.pi / 2 := by
  rw [LiquidContainer.getTiltAngle, h, tiltAngleOfEuler_xzero,
    Real.cos_pi_div_two, Real.arccos_zero]

/-- C4: for every container, `canPour()` holds exactly when the tilt angle
exceeds 30 degrees (pi/6) and the current volume is strictly positive; in
particular it fails whenever the tilt is at most 30 degrees or the volume is
at most 0. -/
theorem canPour_iff (c : LiquidContainer) :
    (c.canPour ↔ c.getTiltAngle > Real.pi / 6 ∧ c.currentVolume > 0) ∧
    (c.getTiltAngle ≤ Real.pi / 6 ∨ c.currentVolume ≤ 0 → ¬ c.canPour) := by
  refine ⟨Iff.rfl, ?_⟩
  rintro (h | h) ⟨h1, h2⟩ <;> linarith

/-- Witness for `canPour_iff` at the beaker as the app creates it: upright
(tilt 0) with 150 mL, so `canPour` is false. -/
theorem canPour_iff_witness :
    tiltAngleOfEuler ⟨0, 0, 0⟩ ≤ Real.pi / 6 ∧
    ¬ LiquidContainer.canPour
      { objId := 0, shape := ContainerShape.beaker, maxVolume := 250,
        currentVolume := 150, pourSpoutOffset := ⟨1.45, 3.3, 0⟩,
        position := ⟨-2.5, -1.9, 0⟩, rotation := ⟨0, 0, 0⟩, isDragging := false } := by
  have htilt : tiltAngleOfEuler ⟨0, 0, 0⟩ = 0 := by
    rw [tiltAngleOfEuler_xzero, Real.cos_zero, Real.arccos_one]
  refine ⟨by rw [htilt]; positivity, ?_⟩
  exact (canPour_iff _).2 (Or.inl (by rw [LiquidContainer.getTiltAngle]; simp only; rw [htilt]; positivity))

/-- C5: for every container, `getTiltAngle()` is exactly the arccosine of the
clamped dot product of world-up with the rotated local-up axis, and its value
always lies in the closed interval `[0, pi]`. -/
theorem getTiltAngle_range (c : LiquidContainer) :
    c.getTiltAngle =
      Real.arccos (max (-1) (min 1 (dot3 ⟨0, 1, 0⟩ (applyEulerXYZ c.rotation ⟨0, 1, 0⟩)))) ∧
    0 ≤ c.getTiltAngle ∧ c.getTiltAngle ≤ Real.pi :=
  ⟨rfl, Real.arccos_nonneg _, Real.arccos_le_pi _⟩

/-- C3: for every container, `getPourRate()` is 0 below a 30-degree (pi/6)
tilt; from the threshold on it equals the normalized excess tilt times 80
capped at 60 mL/second; it never exceeds 60; and at a 120-degree (2*pi/3)
tilt the cap of 60 is attained. -/
theorem getPourRate_spec (c : LiquidContainer) :
    (c.getTiltAngle < Real.pi / 6 → c.getPourRate = 0) ∧
    (Real.pi / 6 ≤ c.getTiltAngle →
      c.getPourRate = min ((c.getTiltAngle - Real.pi / 6) / (Real.pi / 2) * 80) 60) ∧
    c.getPourRate ≤ 60 ∧
    (c.getTiltAngle = 2 * Real.pi / 3 → c.getPourRate = 60) := by
  refine ⟨?_, ?_, ?_, ?_⟩
  · intro h
    unfold LiquidContainer.getPourRate pourRateOfTilt
    rw [if_pos h]
  · intro h
    unfold LiquidContainer.getPourRate pourRateOfTilt
    rw [if_neg (not_lt.mpr h)]
  · unfold LiquidContainer.getPourRate pourRateOfTilt
    split_ifs
    · norm_num
    · exact min_le_right _ _
  · intro h
    have hpi := Real.pi_pos
    unfold LiquidContainer.getPourRate pourRateOfTilt
    rw [h, if_neg (by linarith)]
    have h80 : (2 * Real.pi / 3 - Real.pi / 6) / (Real.pi / 2) * 80 = 80 := by
      have hne : Real.pi ≠ 0 := ne_of_gt hpi
      field_simp
      ring
    rw [h80, min_eq_right (by norm_num)]

/-- A container tilted to 120 degrees of roll (as the drag handler can
produce, its clamp being about 100 degrees shy only of the z axis, the value
is still a legal rotation state). -/
noncomputable def tilted120 : LiquidContainer :=
  { objId := 0, shape := ContainerShape.beaker, maxVolume := 250,
    currentVolume := 150, pourSpoutOffset := ⟨1.45, 3.3, 0⟩,
    position := ⟨-2.5, -1.9, 0⟩, rotation := ⟨0, 0, 2 * Real.pi / 3⟩,
    isDragging := true }

/-- Witness for `getPourRate_spec`: at a 120-degree tilt the rate is exactly
the 60 mL/second cap. -/
theorem getPourRate_spec_witness :
    tilted120.getTiltAngle = 2 * Real.pi / 3 ∧ tilted120.getPourRate = 60 := by
  have hpi := Real.pi_pos
  have htilt : tilted120.getTiltAngle = 2 * Real.pi / 3 := by
    unfold LiquidContainer.getTiltAngle tilted120
    rw [tiltAngleOfEuler_xzero]
    exact Real.arccos_cos (by positivity) (by linarith)
  exact ⟨htilt, (getPourRate_spec tilted120).2.2.2 htilt⟩

/-- C8: the pour rate is monotonically non-decreasing in the tilt angle above
the 30-degree threshold and is bounded by the fixed maximum of 60. -/
theorem pourRate_monotone_bounded :
    (∀ a b : ℝ, Real.pi / 6 < a → a ≤ b → pourRateOfTilt a ≤ pourRateOfTilt b) ∧
    ∀ t : ℝ, pourRateOfTilt t ≤ 60 := by
  constructor
  · intro a b ha hab
    unfold pourRateOfTilt
    rw [if_neg (not_lt.mpr (le_of_lt ha)), if_neg (not_lt.mpr (by linarith))]
    refine min_le_min ?_ le_rfl
    have h2 : (0:ℝ) < Real.pi / 2 := by positivity
    have := (div_le_div_iff_of_pos_right h2).mpr (show a - Real.pi / 6 ≤ b - Real.pi / 6 by linarith)
    nlinarith
  · intro t
    unfold pourRateOfTilt
    split_ifs
    · norm_num
    · exact min_le_right _ _

/-- Witness for `pourRate_monotone_bounded` at tilts of 60 and 90 degrees. -/
theorem pourRate_monotone_bounded_witness :
    Real.pi / 6 < Real.pi / 3 ∧ Real.pi / 3 ≤ Real.pi / 2 ∧
    pourRateOfTilt (Real.pi / 3) ≤ pourRateOfTilt (Real.pi / 2) := by
  have hpi := Real.pi_pos
  have h1 : Real.pi / 6 < Real.pi / 3 := by linarith
  have h2 : Real.pi / 3 ≤ Real.pi / 2 := by linarith
  exact ⟨h1, h2, pourRate_monotone_bounded.1 _ _ h1 h2⟩

/-- C1 (amended): whenever the container's `maxVolume` is non-negative, every
`setVolume` (and hence every `addVolume`) leaves the stored volume inside
`[0, maxVolume]`. -/
theorem setVolume_clamps (c : LiquidContainer) (v : ℝ) (h : 0 ≤ c.maxVolume) :
    (0 ≤ (c.setVolume v).currentVolume ∧
      (c.setVolume v).currentVolume ≤ (c.setVolume v).maxVolume) ∧
    ∀ d : ℝ, 0 ≤ (c.addVolume d).currentVolume ∧
      (c.addVolume d).currentVolume ≤ (c.addVolume d).maxVolume := by
  have key : ∀ w : ℝ, 0 ≤ max 0 (min c.maxVolume w) ∧
      max 0 (min c.maxVolume w) ≤ c.maxVolume :=
    fun w => ⟨le_max_left _ _, max_le h (min_le_left _ _)⟩
  exact ⟨key v, fun d => key _⟩

/-- Witness for `setVolume_clamps`: setting 300 mL on a freshly constructed
default beaker stays inside `[0, 250]`. -/
theorem setVolume_clamps_witness :
    0 ≤ (mkLiquidContainer 0 ContainerShape.beaker ⟨some 250, some 150⟩).maxVolume ∧
    (0 ≤ ((mkLiquidContainer 0 ContainerShape.beaker ⟨some 250, some 150⟩).setVolume 300).currentVolume ∧
      ((mkLiquidContainer 0 ContainerShape.beaker ⟨some 250, some 150⟩).setVolume 300).currentVolume ≤
        ((mkLiquidContainer 0 ContainerShape.beaker ⟨some 250, some 150⟩).setVolume 300).maxVolume) := by
  have hmax : 0 ≤ (mkLiquidContainer 0 ContainerShape.beaker ⟨some 250, some 150⟩).maxVolume := by
    simp [mkLiquidContainer, jsOr]
  exact ⟨hmax, (setVolume_clamps _ 300 hmax).1⟩

/-- C1 counterexample: the constructor stores `initialVolume` without
clamping, so construction with `initialVolume 300` (max 250) already violates
`currentVolume <= maxVolume`; and with a negative `maxVolume` option even a
`setVolume` call leaves the invariant broken. -/
theorem construction_breaks_invariant :
    ¬ ((mkLiquidContainer 0 ContainerShape.beaker ⟨none, some 300⟩).currentVolume ≤
        (mkLiquidContainer 0 ContainerShape.beaker ⟨none, some 300⟩).maxVolume) ∧
    ¬ (((mkLiquidContainer 1 ContainerShape.beaker ⟨some (-5), none⟩).setVolume 10).currentVolume ≤
        ((mkLiquidContainer 1 ContainerShape.beaker ⟨some (-5), none⟩).setVolume 10).maxVolume) := by
  constructor
  · simp only [mkLiquidContainer, jsOr]
    norm_num
  · simp only [mkLiquidContainer, jsOr, LiquidContainer.setVolume]
    norm_num

/-- C2 (amended): in a frame with an identified pouring source, the source's
volume becomes `clamp(v - rate*dt)` and the target's `clamp(v + rate*dt*0.9)`;
when no clamp binds (the poured amount fits in both vessels) the source loses
exactly `rate*dt`, the target gains exactly `rate*dt*0.9`, and the remaining
10 percent is credited to no container (the combined volume drops by
`rate*dt*0.1`); with no target the source still loses exactly `rate*dt`. -/
theorem pourTransfer_exact (src tgt : LiquidContainer) (dt : ℝ) (hdt : 0 ≤ dt)
    (hsrc : src.getPourRate * dt ≤ src.currentVolume)
    (hsmax : src.currentVolume ≤ src.maxVolume)
    (htgt0 : 0 ≤ tgt.currentVolume)
    (htgtmax : tgt.currentVolume + src.getPourRate * dt * 0.9 ≤ tgt.maxVolume) :
    (pourTransferPair src tgt dt).1.currentVolume =
      src.currentVolume - src.getPourRate * dt ∧
    (pourTransferPair src tgt dt).2.currentVolume =
      tgt.currentVolume + src.getPourRate * dt * 0.9 ∧
    (pourTransferPair src tgt dt).1.currentVolume +
        (pourTransferPair src tgt dt).2.currentVolume =
      src.currentVolume + tgt.currentVolume - src.getPourRate * dt * 0.1 ∧
    (pourTransferNoTarget src dt).currentVolume =
      src.currentVolume - src.getPourRate * dt := by
  have hrate : 0 ≤ src.getPourRate * dt :=
    mul_nonneg (pourRateOfTilt_nonneg _) hdt
  have h1 : (pourTransferPair src tgt dt).1.currentVolume =
      src.currentVolume - src.getPourRate * dt := by
    show max 0 (min src.maxVolume (src.currentVolume + -(src.getPourRate * dt))) = _
    rw [max_min_clamp_eq (by linarith) (by linarith)]
    ring
  have h2 : (pourTransferPair src tgt dt).2.currentVolume =
      tgt.currentVolume + src.getPourRate * dt * 0.9 := by
    have h09 : 0 ≤ src.getPourRate * dt * 0.9 := by nlinarith
    show max 0 (min tgt.maxVolume (tgt.currentVolume + src.getPourRate * dt * 0.9)) = _
    rw [max_min_clamp_eq (by linarith) (by linarith)]
  have h4 : (pourTransferNoTarget src dt).currentVolume =
      src.currentVolume - src.getPourRate * dt := by
    show max 0 (min src.maxVolume (src.currentVolume + -(src.getPourRate * dt))) = _
    rw [max_min_clamp_eq (by linarith) (by linarith)]
    ring
  refine ⟨h1, h2, ?_, h4⟩
  rw [h1, h2]
  ring

/-- The beaker mid-pour: dragged, rolled a quarter turn, 150 mL. -/
noncomputable def pouringBeaker : LiquidContainer :=
  { objId := 0, shape := ContainerShape.beaker, maxVolume := 250,
    currentVolume := 150, pourSpoutOffset := ⟨1.45, 3.3, 0⟩,
    position := ⟨-2.5, -1.9, 0⟩, rotation := ⟨0, 0, Real.pi / 2⟩,
    isDragging := true }

/-- The erlenmeyer flask as pour target: upright, 100 mL. -/
noncomputable def receivingFlask : LiquidContainer :=
  { objId := 1, shape := ContainerShape.erlenmeyer, maxVolume := 250,
    currentVolume := 100, pourSpoutOffset := ⟨0, 3.95, 0.32⟩,
    position := ⟨2.5, -1.9, 0⟩, rotation := ⟨0, 0, 0⟩, isDragging := false }

/-- Pour rate of the quarter-rolled beaker: `min((pi/2 - pi/6)/(pi/2)*80, 60)
= 160/3` mL per second. -/
theorem pouringBeaker_rate : pouringBeaker.getPourRate = 160 / 3 := by
  rw [LiquidContainer.getPourRate, getTiltAngle_quarter_roll pouringBeaker rfl,
    pourRateOfTilt_pi_div_two]

/-- Witness for `pourTransfer_exact`: pouring for `dt = 3/160` seconds moves
exactly 1 mL out of the source and 0.9 mL into the target. -/
theorem pourTransfer_exact_witness :
    pouringBeaker.getPourRate * (3 / 160) = 1 ∧
    (pourTransferPair pouringBeaker receivingFlask (3 / 160)).1.currentVolume = 149 ∧
    (pourTransferPair pouringBeaker receivingFlask (3 / 160)).2.currentVolume = 100.9 := by
  have hr : pouringBeaker.getPourRate * (3 / 160) = 1 := by
    rw [pouringBeaker_rate]; norm_num
  have hcur : pouringBeaker.currentVolume = 150 := rfl
  have htcur : receivingFlask.currentVolume = 100 := rfl
  have h := pourTransfer_exact pouringBeaker receivingFlask (3 / 160)
    (by norm_num)
    (by rw [hr, hcur]; norm_num)
    (by rw [hcur]; show (150:ℝ) ≤ 250; norm_num)
    (by rw [htcur]; norm_num)
    (by rw [htcur, hr]; show (100:ℝ) + 1 * 0.9 ≤ 250; norm_num)
  refine ⟨hr, ?_, ?_⟩
  · rw [h.1, hr, hcur]; norm_num
  · rw [h.2.1, hr, htcur]; norm_num

/-- The beaker dragged and pourable but nearly empty: only 0.5 mL left. -/
noncomputable def lowBeaker : LiquidContainer :=
  { pouringBeaker with currentVolume := 1 / 2 }

/-- C2 counterexample: the nearly-empty dragged beaker is an identified
pourable source (`canPour` holds, it is being dragged) and `rate * dt = 1`
mL for `dt = 3/160`, yet its volume only drops by 0.5 mL (clamped at 0), not
by the claimed exact `rate * dt`. -/
theorem pour_decrease_not_exact :
    lowBeaker.canPour ∧ lowBeaker.isDragging = true ∧
    lowBeaker.getPourRate * (3 / 160) = 1 ∧
    (pourTransferNoTarget lowBeaker (3 / 160)).currentVolume = 0 ∧
    lowBeaker.currentVolume - (pourTransferNoTarget lowBeaker (3 / 160)).currentVolume ≠
      lowBeaker.getPourRate * (3 / 160) := by
  have hpi := Real.pi_pos
  have htilt : lowBeaker.getTiltAngle = Real.pi / 2 :=
    getTiltAngle_quarter_roll lowBeaker rfl
  have hr : lowBeaker.getPourRate * (3 / 160) = 1 := by
    rw [LiquidContainer.getPourRate, htilt, pourRateOfTilt_pi_div_two]; norm_num
  have hcur : lowBeaker.currentVolume = 1 / 2 := rfl
  have hmax : lowBeaker.maxVolume = 250 := rfl
  have h0 : (pourTransferNoTarget lowBeaker (3 / 160)).currentVolume = 0 := by
    show max 0 (min lowBeaker.maxVolume
      (lowBeaker.currentVolume + -(lowBeaker.getPourRate * (3 / 160)))) = 0
    rw [hr, hcur, hmax]
    rw [show (1:ℝ) / 2 + -1 = -(1/2) by norm_num,
      min_eq_right (by norm_num : (-(1/2):ℝ) ≤ 250),
      max_eq_left (by norm_num : (-(1/2):ℝ) ≤ 0)]
  refine ⟨⟨by rw [htilt]; linarith, by rw [hcur]; norm_num⟩, rfl, hr, h0, ?_⟩
  rw [hcur, h0, hr]
  norm_num

/-- C6 (amended): a container returned by `findTargetContainer` always
satisfies the horizontal-distance test against its per-shape radius threshold,
and its opening top minus one unit is below the source's spout
(`sourcePos.y > containerTop - 1`) - the spout itself may still be up to one
unit below the opening. -/
theorem findTarget_necessary (src t : LiquidContainer) (cs : List LiquidContainer)
    (h : findTargetContainer src cs = some t) :
    Real.sqrt ((src.getPourSpoutWorldPosition.x - t.position.x) *
        (src.getPourSpoutWorldPosition.x - t.position.x) +
      (src.getPourSpoutWorldPosition.z - t.position.z) *
        (src.getPourSpoutWorldPosition.z - t.position.z)) <
      shapeRadius t.shape * 1.5 ∧
    src.getPourSpoutWorldPosition.y > t.position.y + shapeTopHeight t.shape - 1 := by
  induction cs with
  | nil => simp [findTargetContainer] at h
  | cons c rest ih =>
    simp only [findTargetContainer] at h
    split_ifs at h with h1 h2
    · exact ih h
    · obtain rfl : c = t := Option.some.inj h
      exact h2
    · exact ih h

/-- Evaluation helper: the head of the list is returned as soon as it is not
the source and meets the two tests. -/
theorem findTargetContainer_cons_pos (src c : LiquidContainer)
    (rest : List LiquidContainer) (hid : ¬ (c.objId = src.objId))
    (hcond : Real.sqrt ((src.getPourSpoutWorldPosition.x - c.position.x) *
          (src.getPourSpoutWorldPosition.x - c.position.x) +
        (src.getPourSpoutWorldPosition.z - c.position.z) *
          (src.getPourSpoutWorldPosition.z - c.position.z)) <
        shapeRadius c.shape * 1.5 ∧
      src.getPourSpoutWorldPosition.y > c.position.y + shapeTopHeight c.shape - 1) :
    findTargetContainer src (c :: rest) = some c := by
  rw [findTargetContainer, if_neg hid]
  exact if_pos hcond

/-- A dragged erlenmeyer flask whose spout sits at world height 2.45. -/
noncomputable def strayFlask : LiquidContainer :=
  { objId := 1, shape := ContainerShape.erlenmeyer, maxVolume := 250,
    currentVolume := 100, pourSpoutOffset := ⟨0, 3.95, 0.32⟩,
    position := ⟨0.1, -1.5, -0.32⟩, rotation := ⟨0, 0, 0⟩, isDragging := true }

/-- A beaker at the origin, so its opening is at height 3.3. -/
noncomputable def openBeaker : LiquidContainer :=
  { objId := 0, shape := ContainerShape.beaker, maxVolume := 250,
    currentVolume := 150, pourSpoutOffset := ⟨1.45, 3.3, 0⟩,
    position := ⟨0, 0, 0⟩, rotation := ⟨0, 0, 0⟩, isDragging := false }

/-- The stray flask's spout world position. -/
theorem strayFlask_spout : strayFlask.getPourSpoutWorldPosition = ⟨0.1, 2.45, 0⟩ := by
  rw [LiquidContainer.getPourSpoutWorldPosition,
    show strayFlask.rotation = ⟨0, 0, 0⟩ from rfl, applyEulerXYZ_zero]
  show vadd ⟨0.1, -1.5, -0.32⟩ ⟨0, 3.95, 0.32⟩ = _
  unfold vadd
  norm_num

/-- The stray flask does find the beaker as target. -/
theorem findTarget_eval : findTargetContainer strayFlask [openBeaker] = some openBeaker := by
  refine findTargetContainer_cons_pos strayFlask openBeaker []
    (by simp [openBeaker, strayFlask]) ⟨?_, ?_⟩
  · rw [strayFlask_spout]
    show Real.sqrt (((0.1:ℝ) - 0) * (0.1 - 0) + ((0:ℝ) - 0) * (0 - 0)) < 1.35 * 1.5
    rw [show ((0.1:ℝ) - 0) * (0.1 - 0) + ((0:ℝ) - 0) * (0 - 0) = 0.01 by norm_num]
    exact (Real.sqrt_lt' (by norm_num)).mpr (by norm_num)
  · rw [strayFlask_spout]
    show (2.45:ℝ) > 0 + 3.3 - 1
    norm_num

/-- Witness for `findTarget_necessary` at the stray flask and the beaker. -/
theorem findTarget_necessary_witness :
    findTargetContainer strayFlask [openBeaker] = some openBeaker ∧
    (Real.sqrt ((strayFlask.getPourSpoutWorldPosition.x - openBeaker.position.x) *
          (strayFlask.getPourSpoutWorldPosition.x - openBeaker.position.x) +
        (strayFlask.getPourSpoutWorldPosition.z - openBeaker.position.z) *
          (strayFlask.getPourSpoutWorldPosition.z - openBeaker.position.z)) <
        shapeRadius openBeaker.shape * 1.5 ∧
      strayFlask.getPourSpoutWorldPosition.y >
        openBeaker.position.y + shapeTopHeight openBeaker.shape - 1) :=
  ⟨findTarget_eval, findTarget_necessary strayFlask openBeaker [openBeaker] findTarget_eval⟩

/-- C6 counterexample: the beaker is returned as target although the flask's
spout (height 2.45) is strictly below the beaker's opening (height 3.3) - the
code only demands the spout be above the opening minus one unit. -/
theorem findTarget_spout_below_opening :
    findTargetContainer strayFlask [openBeaker] = some openBeaker ∧
    ¬ (strayFlask.getPourSpoutWorldPosition.y >
        openBeaker.position.y + shapeTopHeight openBeaker.shape) := by
  refine ⟨findTarget_eval, ?_⟩
  rw [strayFlask_spout]
  show ¬ ((2.45:ℝ) > 0 + 3.3)
  norm_num

/-- Scaling by a factor in `[0, 1]` keeps a value between itself and 0. -/
theorem between_of_mul_unit (s c : ℝ) (h0 : 0 ≤ c) (h1 : c ≤ 1) :
    min s 0 ≤ s * c ∧ s * c ≤ max s 0 := by
  rcases le_total 0 s with hs | hs
  · exact ⟨le_trans (min_le_right _ _) (mul_nonneg hs h0),
      le_trans (by nlinarith) (le_max_left _ _)⟩
  · exact ⟨le_trans (min_le_left _ _) (by nlinarith),
      le_trans (by nlinarith) (le_max_right _ _)⟩

/-- The eased interpolation towards 0 scales the start value by the remaining
cube `(1 - q)^3`, so it stays between the start value and 0. -/
theorem lerp_to_zero_between (s q : ℝ) (h0 : 0 ≤ (1 - q) ^ 3) (h1 : (1 - q) ^ 3 ≤ 1) :
    min s 0 ≤ lerp s 0 (1 - (1 - q) ^ 3) ∧ lerp s 0 (1 - (1 - q) ^ 3) ≤ max s 0 := by
  have h := between_of_mul_unit s ((1 - q) ^ 3) h0 h1
  have heq : lerp s 0 (1 - (1 - q) ^ 3) = s * (1 - q) ^ 3 := by unfold lerp; ring
  rw [heq]
  exact h

/-- C7: one frame of the return animation started from rotation `r`, at any
accumulated progress `p >= 0` and frame delta `dt >= 0`: if the advanced
progress reaches 1 the entry is removed and the rotation is snapped exactly
to `(0, r.y, 0)` (with the yaw held at release); otherwise yaw is left
untouched and the eased x and z components stay between their start values
and their target 0, so no component ever overshoots its target. -/
theorem returnAnimation_spec (r cur : Euler) (p dt : ℝ) (hp : 0 ≤ p) (hdt : 0 ≤ dt) :
    ((animUpdateStep cur { startReturnAnimation r with progress := p } dt).anim = none →
      (animUpdateStep cur { startReturnAnimation r with progress := p } dt).rot = ⟨0, r.y, 0⟩) ∧
    ((animUpdateStep cur { startReturnAnimation r with progress := p } dt).anim ≠ none →
      (animUpdateStep cur { startReturnAnimation r with progress := p } dt).rot.y = cur.y ∧
      min r.x 0 ≤ (animUpdateStep cur { startReturnAnimation r with progress := p } dt).rot.x ∧
      (animUpdateStep cur { startReturnAnimation r with progress := p } dt).rot.x ≤ max r.x 0 ∧
      min r.z 0 ≤ (animUpdateStep cur { startReturnAnimation r with progress := p } dt).rot.z ∧
      (animUpdateStep cur { startReturnAnimation r with progress := p } dt).rot.z ≤ max r.z 0) := by
  have hq : 0 ≤ dt / (0.5 : ℝ) := div_nonneg hdt (by norm_num)
  simp only [animUpdateStep, startReturnAnimation]
  split_ifs with hge
  · exact ⟨fun _ => rfl, fun hne => absurd rfl hne⟩
  · push_neg at hge
    refine ⟨fun hnone => absurd hnone (by simp), fun _ => ?_⟩
    have hbase : 0 ≤ 1 - (p + dt / (0.5 : ℝ)) := by linarith
    have hc0 : 0 ≤ (1 - (p + dt / (0.5 : ℝ))) ^ 3 := pow_nonneg hbase 3
    have hc1 : (1 - (p + dt / (0.5 : ℝ))) ^ 3 ≤ 1 := by
      have hle : 1 - (p + dt / (0.5 : ℝ)) ≤ 1 := by linarith
      calc (1 - (p + dt / (0.5 : ℝ))) ^ 3 ≤ 1 ^ 3 := by gcongr
        _ = 1 := one_pow 3
    have hx := lerp_to_zero_between r.x (p + dt / (0.5 : ℝ)) hc0 hc1
    have hz := lerp_to_zero_between r.z (p + dt / (0.5 : ℝ)) hc0 hc1
    exact ⟨rfl, hx.1, hx.2, hz.1, hz.2⟩

/-- Witness for `returnAnimation_spec`: releasing at rotation `(1, 2, -1)` and
stepping a quarter second from progress 0. -/
theorem returnAnimation_spec_witness :
    ((animUpdateStep ⟨1, 2, -1⟩ { startReturnAnimation ⟨1, 2, -1⟩ with progress := (0:ℝ) } (1/4)).anim = none →
      (animUpdateStep ⟨1, 2, -1⟩ { startReturnAnimation ⟨1, 2, -1⟩ with progress := (0:ℝ) } (1/4)).rot = ⟨0, 2, 0⟩) ∧
    ((animUpdateStep ⟨1, 2, -1⟩ { startReturnAnimation ⟨1, 2, -1⟩ with progress := (0:ℝ) } (1/4)).anim ≠ none →
      (animUpdateStep ⟨1, 2, -1⟩ { startReturnAnimation ⟨1, 2, -1⟩ with progress := (0:ℝ) } (1/4)).rot.y = 2 ∧
      min 1 0 ≤ (animUpdateStep ⟨1, 2, -1⟩ { startReturnAnimation ⟨1, 2, -1⟩ with progress := (0:ℝ) } (1/4)).rot.x ∧
      (animUpdateStep ⟨1, 2, -1⟩ { startReturnAnimation ⟨1, 2, -1⟩ with progress := (0:ℝ) } (1/4)).rot.x ≤ max 1 0 ∧
      min (-1) 0 ≤ (animUpdateStep ⟨1, 2, -1⟩ { startReturnAnimation ⟨1, 2, -1⟩ with progress := (0:ℝ) } (1/4)).rot.z ∧
      (animUpdateStep ⟨1, 2, -1⟩ { startReturnAnimation ⟨1, 2, -1⟩ with progress := (0:ℝ) } (1/4)).rot.z ≤ max (-1) 0) :=
  returnAnimation_spec ⟨1, 2, -1⟩ ⟨1, 2, -1⟩ 0 (1/4) le_rfl (by norm_num)

/-- The exclusion invariant of the interaction manager: a container that is
currently being dragged has no pending return animation. -/
def DragAnimInv (s : IState) : Prop :=
  ∀ c : ℕ, s.isDragging = true → s.selected = some c → s.anims c = none

/-- The initial interaction state satisfies the exclusion invariant. -/
theorem dragAnimInv_init : DragAnimInv initIState := by
  intro c _ hsel
  simp [initIState] at hsel

/-- Every event of the interaction manager preserves the exclusion
invariant. -/
theorem dragAnimInv_step (s : IState) (e : IEvent) (h : DragAnimInv s) :
    DragAnimInv (istep s e) := by
  cases e with
  | mouseDown hit =>
    cases hit with
    | none => exact h
    | some c0 =>
      intro c _ hsel
      simp only [istep] at hsel ⊢
      obtain rfl : c0 = c := Option.some.inj hsel
      simp
  | mouseMove =>
    intro c hd hsel
    by_cases hdrag : s.isDragging
    · cases hsome : s.selected with
      | none =>
        simp only [istep, if_pos hdrag, hsome] at hd hsel ⊢
        exact absurd hsel (by simp)
      | some c1 =>
        simp only [istep, if_pos hdrag, hsome] at hd hsel ⊢
        obtain rfl : c1 = c := Option.some.inj hsel
        simp
    · simp only [istep, if_neg hdrag] at hd hsel ⊢
      exact h c hd hsel
  | mouseUp =>
    intro c hd hsel
    cases hsome : s.selected with
    | none =>
      simp only [istep, hsome] at hd
      exact absurd hd (by simp)
    | some c1 =>
      simp only [istep, hsome] at hd
      exact absurd hd (by simp)
  | frame dt =>
    intro c hd hsel
    simp only [istep] at hd hsel ⊢
    rw [h c hd hsel]

/-- C9: a pointer-down hit on a container removes that container's pending
return animation at once, selects it and sets the drag flag; consequently, in
every state reachable from initialization, a container that is being dragged
never has a return animation in flight. -/
theorem dragStart_cancels_return :
    (∀ (s : IState) (c : ℕ),
      (istep s (IEvent.mouseDown (some c))).anims c = none ∧
      (istep s (IEvent.mouseDown (some c))).selected = some c ∧
      (istep s (IEvent.mouseDown (some c))).isDragging = true) ∧
    ∀ s : IState, Reachable s → ∀ c : ℕ,
      s.isDragging = true → s.selected = some c → s.anims c = none := by
  constructor
  · intro s c
    refine ⟨?_, rfl, rfl⟩
    simp [istep]
  · intro s hs
    show DragAnimInv s
    induction hs with
    | init => exact dragAnimInv_init
    | step s2 e _ ih => exact dragAnimInv_step s2 e ih

/-- Witness for `dragStart_cancels_return`: the state after a mouse-down hit
on container 0 from the initial state is reachable, dragging, has container 0
selected, and carries no return animation for it. -/
theorem dragStart_cancels_return_witness :
    Reachable (istep initIState (IEvent.mouseDown (some 0))) ∧
    (istep initIState (IEvent.mouseDown (some 0))).isDragging = true ∧
    (istep initIState (IEvent.mouseDown (some 0))).selected = some 0 ∧
    (istep initIState (IEvent.mouseDown (some 0))).anims 0 = none := by
  have hr : Reachable (istep initIState (IEvent.mouseDown (some 0))) :=
    Reachable.step initIState (IEvent.mouseDown (some 0)) Reachable.init
  exact ⟨hr, rfl, rfl, dragStart_cancels_return.2 _ hr 0 rfl rfl⟩

/-- C10: for a rotation of the form `(0, yaw, roll)` - the only form the drag
handler writes - the tilt angle is the absolute value of the roll (for roll in
`[-pi, pi]`), is independent of the yaw, and a rotation about the world-up
axis alone gives tilt 0, so such a container can never pour. -/
theorem tilt_of_yaw_roll (y roll : ℝ) (h1 : -Real.pi ≤ roll) (h2 : roll ≤ Real.pi) :
    tiltAngleOfEuler ⟨0, y, roll⟩ = |roll| ∧
    (∀ y2 : ℝ, tiltAngleOfEuler ⟨0, y2, roll⟩ = tiltAngleOfEuler ⟨0, y, roll⟩) ∧
    tiltAngleOfEuler ⟨0, y, 0⟩ = 0 ∧
    ∀ c : LiquidContainer, c.rotation = ⟨0, y, 0⟩ → ¬ c.canPour := by
  have hpi := Real.pi_pos
  have hzero : tiltAngleOfEuler ⟨0, y, 0⟩ = 0 := by
    rw [tiltAngleOfEuler_xzero, Real.cos_zero, Real.arccos_one]
  refine ⟨tiltAngleOfEuler_abs y roll h1 h2, ?_, hzero, ?_⟩
  · intro y2
    rw [tiltAngleOfEuler_xzero, tiltAngleOfEuler_xzero]
  · intro c hc hcp
    have hcp2 : c.getTiltAngle > Real.pi / 6 ∧ c.currentVolume > 0 := hcp
    have htilt : c.getTiltAngle = 0 := by
      rw [LiquidContainer.getTiltAngle, hc, hzero]
    rw [htilt] at hcp2
    linarith [hcp2.1]

/-- Witness for `tilt_of_yaw_roll`: with yaw 5 and a quarter-turn roll the
tilt angle is exactly `pi / 2`. -/
theorem tilt_of_yaw_roll_witness :
    -Real.pi ≤ Real.pi / 2 ∧ Real.pi / 2 ≤ Real.pi ∧
    tiltAngleOfEuler ⟨0, 5, Real.pi / 2⟩ = Real.pi / 2 := by
  have hpi := Real.pi_pos
  have h1 : -Real.pi ≤ Real.pi / 2 := by linarith
  have h2 : Real.pi / 2 ≤ Real.pi := by linarith
  refine ⟨h1, h2, ?_⟩
  have h := (tilt_of_yaw_roll 5 (Real.pi / 2) h1 h2).1
  rwa [abs_of_nonneg (by positivity)] at h
